import Mathlib

set_option autoImplicit false

/-!
Verification of the browser-resolution core of
`telemetry/internal/browser/browser_finder.py`.

The module resolves, from a list of pluggable discovery backends, the single
browser candidate a test run should control.  The embedding below translates
`browser_finder.py` into pure Lean functions:

* the external collaborators (the three backend finder modules, the device
  enumerator, and the candidate objects' hooks) become parameters collected in
  an `Env` structure, exactly mirroring the functions the Python module calls
  on them;
* the single side effect, `UpdateExecutableIfNeeded`, is made observable by
  returning the list of candidates on which it is invoked;
* the number of device-enumeration calls and backend-discovery calls is
  returned alongside the result, so "fails before any discovery" statements
  can be expressed;
* Python exceptions become an explicit error type returned in `Except`.
-/

namespace BrowserFinding

/-- A `PossibleBrowser` object as `browser_finder.py` consumes it: the fields
it reads (`browser_type`, `target_os`, `last_modification_time`) and the
capability hook `SupportsOptions` it calls with `options.browser_options`
(modelled as a `String` argument).  `last_modification_time` is modelled as a
natural number; only its ordering is used by the code. -/
structure PossibleBrowser where
  browser_type : String
  target_os : String
  last_modification_time : Nat
  supportsOptions : String → Bool

/-- A device handle as returned by `device_finder.GetDevicesMatchingOptions`:
either `none` (Python `None`, falsy) or an actual device object (always
truthy).  The payload is an opaque identifier. -/
abbrev Device := Option String

/-- The `BrowserFinderOptions` object: the fields `browser_finder.py` reads.
`fake = some fpb` models an object whose class is named
`_FakeBrowserFinderOptions` with `fake_possible_browser = fpb` (itself
possibly `None`); `fake = none` models an ordinary options object.
The `browser_options` sub-object is opaque to the module and is modelled as a
`String` key passed to each candidate's `supportsOptions` hook. -/
structure FinderOptions where
  browser_type : Option String
  browser_executable : Option String
  cros_remote : Option String
  browser_options : String
  fake : Option (Option PossibleBrowser)

/-- One entry of `BROWSER_FINDERS`: a backend finder module exposing
`FindAllBrowserTypes`, `FindAllAvailableBrowsers` and `SelectDefaultBrowser`. -/
structure FinderBackend where
  findAllBrowserTypes : FinderOptions → List String
  findAllAvailableBrowsers : FinderOptions → Device → List PossibleBrowser
  selectDefaultBrowser : List PossibleBrowser → Option PossibleBrowser

/-- The environment of external collaborators: the fixed, ordered
`BROWSER_FINDERS` list (registration order desktop, android, cros) and
`device_finder.GetDevicesMatchingOptions`, each an opaque function of the
options object (and, for discovery, the device). -/
structure Env where
  finders : List FinderBackend
  getDevicesMatchingOptions : FinderOptions → List Device

/-- The contract of `SelectDefaultBrowser` (`PickDefault` in the design):
a backend's default is picked from the candidate list it is given. -/
def Env.Lawful (env : Env) : Prop :=
  ∀ f ∈ env.finders, ∀ (l : List PossibleBrowser) (b : PossibleBrowser),
    f.selectDefaultBrowser l = some b → b ∈ l

/-- The exceptions `browser_finder.py` raises: `BrowserFinderException`
(configuration errors) carrying its message, and
`BrowserTypeRequiredException` carrying the sorted de-duplicated list of
available browser types that its message enumerates (the message is
`'--browser must be specified. Available browsers:\n'` followed by that list
joined with newlines). -/
inductive FinderError where
  | configurationError (message : String)
  | browserTypeRequired (availableTypes : List String)

/-- Python's `sorted(set(l))` for strings: de-duplicate, then sort
lexicographically. -/
def sortedDedup (l : List String) : List String :=
  l.dedup.mergeSort (fun a b => a ≤ b)

/-- Python's `max`/`min` with a key function, folded over `acc :: l`:
the first element achieving the optimum is kept, because the accumulator is
replaced only when `better y acc` is true.  `max(l, key=k)` is
`pyBest (fun y acc => k acc < k y)`, `min(l, key=k)` is
`pyBest (fun y acc => k y < k acc)`, each applied to the head and tail. -/
def pyBest (better : PossibleBrowser → PossibleBrowser → Bool)
    (acc : PossibleBrowser) : List PossibleBrowser → PossibleBrowser
  | [] => acc
  | y :: ys => pyBest better (if better y acc then y else acc) ys

/-- `max(l, key=lambda b: b.last_modification_time)` on `d :: ds`. -/
def pyMaxByTime (d : PossibleBrowser) (ds : List PossibleBrowser) : PossibleBrowser :=
  pyBest (fun y acc => acc.last_modification_time < y.last_modification_time) d ds

/-- `min(l, key=lambda b: types.index(b.browser_type))` on `b :: bs`.
`List.indexOf` agrees with Python's `list.index` whenever the element is
present (Python raises `ValueError` otherwise). -/
def pyMinByTypeIndex (types : List String) (b : PossibleBrowser)
    (bs : List PossibleBrowser) : PossibleBrowser :=
  pyBest (fun y acc =>
    types.indexOf y.browser_type < types.indexOf acc.browser_type) b bs

/-- `FindAllBrowserTypes` (module level, lines 23-27): concatenation of each
backend's declared types, in registration order. -/
def FindAllBrowserTypes (env : Env) (options : FinderOptions) : List String :=
  env.finders.flatMap (fun bf => bf.findAllBrowserTypes options)

/-- The four sequential validation checks of `FindBrowser` (lines 45-59);
`some e` is the first raised `BrowserFinderException`, `none` means the
configuration is accepted and discovery proceeds. -/
def validationError (o : FinderOptions) : Option FinderError :=
  if o.browser_type = some "exact" ∧ o.browser_executable = none then
    some (.configurationError
      "--browser=exact requires --browser-executable to be set.")
  else if o.browser_type ≠ some "exact" ∧ o.browser_executable ≠ none then
    some (.configurationError "--browser-executable requires --browser=exact.")
  else if o.browser_type = some "cros-chrome" ∧ o.cros_remote = none then
    some (.configurationError
      "browser_type=cros-chrome requires cros_remote be set.")
  else if (o.browser_type ≠ some "cros-chrome" ∧
      o.browser_type ≠ some "cros-chrome-guest") ∧ o.cros_remote ≠ none then
    some (.configurationError
      "--remote requires --browser=cros-chrome or cros-chrome-guest.")
  else
    none

/-- The body of the aggregation loop (lines 65-73) for one `(device, finder)`
pair.  The accumulator carries the aggregated `browsers`, the aggregated
`default_browsers`, and the number of backend-function invocations so far.
The skip test (line 66) calls `finder.FindAllBrowserTypes` only when
`options.browser_type` is truthy and not `'any'` (Python `and`
short-circuits); a visited pair additionally calls
`FindAllAvailableBrowsers` and `SelectDefaultBrowser`. -/
def aggregateStep (o : FinderOptions) (device : Device)
    (acc : List PossibleBrowser × List PossibleBrowser × Nat)
    (finder : FinderBackend) :
    List PossibleBrowser × List PossibleBrowser × Nat :=
  let (browsers, defaults, calls) := acc
  let truthyNotAny : Bool :=
    match o.browser_type with
    | some t => t ≠ "" && t ≠ "any"
    | none => false
  let skip : Bool :=
    match o.browser_type with
    | some t =>
      t ≠ "" && t ≠ "any" &&
        !((finder.findAllBrowserTypes o).contains t)
    | none => false
  if skip then
    (browsers, defaults, calls + 1)
  else
    let curr := finder.findAllAvailableBrowsers o device
    let defaults' :=
      match finder.selectDefaultBrowser curr with
      | some nb => defaults ++ [nb]
      | none => defaults
    (browsers ++ curr, defaults', calls + (if truthyNotAny then 1 else 0) + 2)

/-- The aggregation phase of `FindBrowser` (lines 61-73): for each matching
device, query each registered finder in order, collecting candidates and
per-backend defaults, and counting backend invocations. -/
def aggregate (env : Env) (o : FinderOptions) :
    List PossibleBrowser × List PossibleBrowser × Nat :=
  (env.getDevicesMatchingOptions o).foldl
    (fun acc device => env.finders.foldl (aggregateStep o device) acc)
    ([], [], 0)

/-- The explicit-type filter of lines 102-105: candidates of the requested
type whose `SupportsOptions(options.browser_options)` hook returns true. -/
def matchingBrowsers (o : FinderOptions) (t : String)
    (browsers : List PossibleBrowser) : List PossibleBrowser :=
  browsers.filter (fun b =>
    b.browser_type == t && b.supportsOptions o.browser_options)

/-- The observable outcome of one `FindBrowser` call: the returned value or
raised exception, the sequence of candidates on which
`UpdateExecutableIfNeeded` was invoked, the number of
`GetDevicesMatchingOptions` calls and the number of backend finder-function
invocations. -/
structure RunResult where
  result : Except FinderError (Option PossibleBrowser)
  updates : List PossibleBrowser
  deviceCalls : Nat
  backendCalls : Nat

/-- The resolution phase of `FindBrowser` (lines 75-119), applied to the
aggregated `browsers` and `default_browsers`; `bcalls` is the backend-call
count accumulated by aggregation, to which the `'any'` path adds one
`FindAllBrowserTypes` call per registered finder (line 99). -/
def resolve (env : Env) (o : FinderOptions)
    (browsers defaults : List PossibleBrowser) (bcalls : Nat) : RunResult :=
  match browsers with
  | [] => ⟨.ok none, [], 1, bcalls⟩
  | b0 :: rest =>
    match o.browser_type with
    | none =>
      match defaults with
      | d0 :: ds =>
        let db := pyMaxByTime d0 ds
        ⟨.ok (some db), [db], 1, bcalls⟩
      | [] =>
        match rest with
        | [] => ⟨.ok (some b0), [b0], 1, bcalls⟩
        | _ :: _ =>
          ⟨.error (.browserTypeRequired
            (sortedDedup ((b0 :: rest).map (fun b => b.browser_type)))),
           [], 1, bcalls⟩
    | some t =>
      if t = "any" then
        let types := FindAllBrowserTypes env o
        let cb := pyMinByTypeIndex types b0 rest
        ⟨.ok (some cb), [cb], 1, bcalls + env.finders.length⟩
      else
        match matchingBrowsers o t (b0 :: rest) with
        | [] => ⟨.ok none, [], 1, bcalls⟩
        | m0 :: ms =>
          let cb := pyMaxByTime m0 ms
          ⟨.ok (some cb), [cb], 1, bcalls⟩

/-- `FindBrowser` (lines 30-119), without the memoization decorator (modelled
separately): the fake-options short-circuit (lines 43-44), validation
(lines 45-59), aggregation (lines 61-73) and resolution (lines 75-119). -/
def FindBrowserRun (env : Env) (o : FinderOptions) : RunResult :=
  match o.fake with
  | some fpb => ⟨.ok fpb, [], 0, 0⟩
  | none =>
    match validationError o with
    | some e => ⟨.error e, [], 0, 0⟩
    | none =>
      match aggregate env o with
      | (browsers, defaults, bcalls) => resolve env o browsers defaults bcalls

/-- `GetAllAvailableBrowsers` (lines 122-142): empty for a falsy device,
otherwise the concatenation of every backend's candidates for it. -/
def GetAllAvailableBrowsers (env : Env) (o : FinderOptions)
    (device : Device) : List PossibleBrowser :=
  match device with
  | none => []
  | some _ =>
    env.finders.flatMap (fun bf =>
      bf.findAllAvailableBrowsers o device)

/-- The candidate pool of `GetAllAvailableBrowserTypes` (lines 158-161):
`GetAllAvailableBrowsers` over every matching device. -/
def discoveredBrowsers (env : Env) (o : FinderOptions) : List PossibleBrowser :=
  (env.getDevicesMatchingOptions o).flatMap
    (fun d => GetAllAvailableBrowsers env o d)

/-- The reference-build test of lines 166-167: `target_os` is `'darwin'` or
starts with `'linux'` or `'win'`. -/
def refCond (b : PossibleBrowser) : Bool :=
  b.target_os == "darwin" || b.target_os.startsWith "linux" ||
    b.target_os.startsWith "win"

/-- `GetAllAvailableBrowserTypes` (lines 145-170): the set of discovered
`browser_type` names, with `'reference'` added when any discovered candidate
satisfies `refCond`, returned sorted.  The Python `set` is modelled by
de-duplicating and sorting the concatenated name list. -/
def GetAllAvailableBrowserTypes (env : Env) (o : FinderOptions) : List String :=
  let possible := discoveredBrowsers env o
  sortedDedup
    ((possible.map (fun b => b.browser_type)) ++
      (if possible.any refCond then ["reference"] else []))

/-- Modelled from the spec: the memoization key of `decorators.Cache`
(the decorator's source is not part of this tree).  Per the design, cache key
equality is structural on the configuration's significant fields. -/
structure ConfigKey where
  browser_type : Option String
  browser_executable : Option String
  cros_remote : Option String
  browser_options : String
deriving DecidableEq

/-- The significant-field key of an options object. -/
def FinderOptions.key (o : FinderOptions) : ConfigKey :=
  ⟨o.browser_type, o.browser_executable, o.cros_remote, o.browser_options⟩

/-- Modelled from the spec: the process-wide memoization store of
`decorators.Cache`, an association of configuration keys to previously
computed results. -/
abbrev Cache := List (ConfigKey × Except FinderError (Option PossibleBrowser))

/-- The observable outcome of one memoized `FindBrowser` call: its result,
its device-enumeration and backend-invocation counts, and the cache left
behind. -/
structure CachedCall where
  result : Except FinderError (Option PossibleBrowser)
  deviceCalls : Nat
  backendCalls : Nat
  cache : Cache

/-- Modelled from the spec: `FindBrowser` as wrapped by `decorators.Cache`
(lines 30-31).  A hit on a structurally equal key returns the stored result
with no device enumeration and no backend invocation; a miss runs
`FindBrowserRun` and stores its result under the key. -/
def FindBrowserCached (env : Env) (cache : Cache) (o : FinderOptions) :
    CachedCall :=
  match cache.find? (fun e => decide (e.1 = o.key)) with
  | some e => ⟨e.2, 0, 0, cache⟩
  | none =>
    let run := FindBrowserRun env o
    ⟨run.result, run.deviceCalls, run.backendCalls,
      cache ++ [(o.key, run.result)]⟩

end BrowserFinding

namespace BrowserFinding

/-! ### Concrete sample data, used to instantiate the theorems on
executable inputs -/

/-- A sample desktop-style candidate of type `stable`, built at time 100. -/
def pbStable : PossibleBrowser := ⟨"stable", "linux", 100, fun _ => true⟩

/-- A sample desktop-style candidate of type `canary`, built at time 200. -/
def pbCanary : PossibleBrowser := ⟨"canary", "linux", 200, fun _ => true⟩

/-- A sample candidate of type `exact`. -/
def pbExact : PossibleBrowser := ⟨"exact", "linux", 5, fun _ => true⟩

/-- A sample backend declaring and returning exactly one candidate, and
selecting the head of its candidate list as the default. -/
def backendOf (pb : PossibleBrowser) : FinderBackend :=
  ⟨fun _ => [pb.browser_type], fun _ _ => [pb], fun l => l.head?⟩

/-- A sample backend declaring and returning exactly one candidate and never
reporting a default. -/
def backendNoDefault (pb : PossibleBrowser) : FinderBackend :=
  ⟨fun _ => [pb.browser_type], fun _ _ => [pb], fun _ => none⟩

/-- An environment with no backends and no devices. -/
def envEmpty : Env := ⟨[], fun _ => []⟩

/-- Two backends, each reporting its candidate as a default. -/
def envTwoDefaults : Env :=
  ⟨[backendOf pbStable, backendOf pbCanary], fun _ => [some "d"]⟩

/-- One backend, one candidate, no default. -/
def envSingle : Env := ⟨[backendNoDefault pbStable], fun _ => [some "d"]⟩

/-- Two backends with distinct candidate types and no defaults. -/
def envTwoTypes : Env :=
  ⟨[backendNoDefault pbStable, backendNoDefault pbCanary], fun _ => [some "d"]⟩

/-- One backend reporting one candidate of type `exact`. -/
def envExact : Env := ⟨[backendOf pbExact], fun _ => [some "d"]⟩

/-- A configuration with no browser type requested. -/
def oUnset : FinderOptions := ⟨none, none, none, "", none⟩

/-- A configuration requesting type `any`. -/
def oAny : FinderOptions := ⟨some "any", none, none, "", none⟩

/-- A valid `exact` configuration. -/
def oExactGood : FinderOptions :=
  ⟨some "exact", some "/opt/chrome", none, "", none⟩

/-- An invalid configuration: type `exact` with no executable. -/
def oExactBad : FinderOptions := ⟨some "exact", none, none, "", none⟩

/-- A configuration with type `cros-chrome-guest` and no remote. -/
def oCrosGuest : FinderOptions :=
  ⟨some "cros-chrome-guest", none, none, "", none⟩

/-- A fake options object wrapping `pbStable`, with an otherwise invalid
configuration (type `exact`, no executable). -/
def oFakeBad : FinderOptions :=
  ⟨some "exact", none, none, "", some (some pbStable)⟩

/-! ### Properties of Python-style `max`/`min` and `sorted(set(...))` -/

theorem pyBest_split (better : PossibleBrowser → PossibleBrowser → Bool)
    (H1 : ∀ a b c, better a b = true → better b c = true → better a c = true)
    (H2 : ∀ r a y, better r a = true → better y a = false → better r y = true) :
    ∀ (l : List PossibleBrowser) (acc : PossibleBrowser),
      ∃ l₁ l₂, acc :: l = l₁ ++ pyBest better acc l :: l₂ ∧
        (∀ x ∈ l₁, better (pyBest better acc l) x = true) ∧
        (∀ x ∈ l₂, better x (pyBest better acc l) = false) := by
  intro l
  induction l with
  | nil =>
    intro acc
    exact ⟨[], [], rfl, by simp, by simp [pyBest]⟩
  | cons y ys ih =>
    intro acc
    by_cases hb : better y acc = true
    · have hstep : pyBest better acc (y :: ys) = pyBest better y ys := by
        simp [pyBest, hb]
      obtain ⟨l₁, l₂, heq, h₁, h₂⟩ := ih y
      rw [hstep]
      refine ⟨acc :: l₁, l₂, by rw [List.cons_append, ← heq], ?_, h₂⟩
      intro x hx
      rcases List.mem_cons.mp hx with hx | hx
      · subst hx
        cases l₁ with
        | nil =>
          simp only [List.nil_append] at heq
          injection heq with hy _
          rw [← hy]
          exact hb
        | cons a l₁' =>
          simp only [List.cons_append] at heq
          injection heq with hy _
          have hra := h₁ a (List.mem_cons_self a l₁')
          rw [← hy] at hra
          exact H1 _ _ _ hra hb
      · exact h₁ x hx
    · have hb' : better y acc = false := Bool.eq_false_iff.mpr hb
      have hstep : pyBest better acc (y :: ys) = pyBest better acc ys := by
        simp [pyBest, hb']
      obtain ⟨l₁, l₂, heq, h₁, h₂⟩ := ih acc
      rw [hstep]
      cases l₁ with
      | nil =>
        simp only [List.nil_append] at heq
        injection heq with ha hys
        refine ⟨[], y :: l₂, ?_, by simp, ?_⟩
        · rw [List.nil_append, ← ha, hys]
        · intro x hx
          rcases List.mem_cons.mp hx with hx | hx
          · subst hx
            rw [← ha]
            exact hb'
          · exact h₂ x hx
      | cons a l₁' =>
        simp only [List.cons_append] at heq
        injection heq with ha hys
        have hra := h₁ a (List.mem_cons_self a l₁')
        rw [← ha] at hra
        refine ⟨acc :: y :: l₁', l₂, ?_, ?_, h₂⟩
        · simp only [List.cons_append]
          conv_lhs => rw [hys]
        · intro x hx
          rcases List.mem_cons.mp hx with hx | hx
          · subst hx
            exact hra
          rcases List.mem_cons.mp hx with hx | hx
          · subst hx
            exact H2 _ _ _ hra hb'
          · exact h₁ x (List.mem_cons_of_mem a hx)

theorem pyMaxByTime_split (d : PossibleBrowser) (ds : List PossibleBrowser) :
    ∃ l₁ l₂, d :: ds = l₁ ++ pyMaxByTime d ds :: l₂ ∧
      (∀ x ∈ l₁,
        x.last_modification_time < (pyMaxByTime d ds).last_modification_time) ∧
      (∀ x ∈ l₂,
        x.last_modification_time ≤ (pyMaxByTime d ds).last_modification_time) := by
  unfold pyMaxByTime
  obtain ⟨l₁, l₂, heq, h₁, h₂⟩ :=
    pyBest_split
      (fun y acc => acc.last_modification_time < y.last_modification_time)
      (fun a b c hab hbc => by
        simp only [decide_eq_true_eq] at hab hbc ⊢; omega)
      (fun r a y hra hya => by
        simp only [decide_eq_true_eq] at hra ⊢
        simp only [decide_eq_false_iff_not] at hya
        omega)
      ds d
  refine ⟨l₁, l₂, heq, ?_, ?_⟩
  · intro x hx
    have := h₁ x hx
    simpa using this
  · intro x hx
    have := h₂ x hx
    simp only [decide_eq_false_iff_not, not_lt] at this
    exact this

theorem pyMinByTypeIndex_split (types : List String) (b : PossibleBrowser)
    (bs : List PossibleBrowser) :
    ∃ l₁ l₂, b :: bs = l₁ ++ pyMinByTypeIndex types b bs :: l₂ ∧
      (∀ x ∈ l₁,
        types.indexOf (pyMinByTypeIndex types b bs).browser_type <
          types.indexOf x.browser_type) ∧
      (∀ x ∈ l₂,
        types.indexOf (pyMinByTypeIndex types b bs).browser_type ≤
          types.indexOf x.browser_type) := by
  unfold pyMinByTypeIndex
  obtain ⟨l₁, l₂, heq, h₁, h₂⟩ :=
    pyBest_split
      (fun y acc =>
        types.indexOf y.browser_type < types.indexOf acc.browser_type)
      (fun a b c hab hbc => by
        simp only [decide_eq_true_eq] at hab hbc ⊢; omega)
      (fun r a y hra hya => by
        simp only [decide_eq_true_eq] at hra ⊢
        simp only [decide_eq_false_iff_not] at hya
        omega)
      bs b
  refine ⟨l₁, l₂, heq, ?_, ?_⟩
  · intro x hx
    have := h₁ x hx
    simpa using this
  · intro x hx
    have := h₂ x hx
    simp only [decide_eq_false_iff_not, not_lt] at this
    exact this

theorem sortedDedup_sorted (l : List String) :
    (sortedDedup l).Sorted (· ≤ ·) := by
  have h : List.Pairwise (fun a b : String => decide (a ≤ b) = true)
      (List.mergeSort l.dedup (fun a b => decide (a ≤ b))) :=
    List.sorted_mergeSort
      (fun a b c hab hbc => by
        simp only [decide_eq_true_eq] at hab hbc ⊢
        exact le_trans hab hbc)
      (fun a b => by simpa using le_total a b)
      l.dedup
  exact h.imp (fun hx => by simpa using hx)

theorem sortedDedup_nodup (l : List String) : (sortedDedup l).Nodup :=
  (List.mergeSort_perm l.dedup _).nodup_iff.mpr (List.nodup_dedup l)

theorem mem_sortedDedup {s : String} {l : List String} :
    s ∈ sortedDedup l ↔ s ∈ l :=
  (List.mergeSort_perm l.dedup _).mem_iff.trans List.mem_dedup

/-! ### Validation characterization -/

/-- The disjunction of the four rejected configuration shapes of
lines 45-59. -/
def invalidConfig (o : FinderOptions) : Prop :=
  (o.browser_type = some "exact" ∧ o.browser_executable = none) ∨
  (o.browser_type ≠ some "exact" ∧ o.browser_executable ≠ none) ∨
  (o.browser_type = some "cros-chrome" ∧ o.cros_remote = none) ∨
  ((o.browser_type ≠ some "cros-chrome" ∧
      o.browser_type ≠ some "cros-chrome-guest") ∧ o.cros_remote ≠ none)

theorem validationError_eq_none_iff (o : FinderOptions) :
    validationError o = none ↔ ¬ invalidConfig o := by
  unfold validationError invalidConfig
  split_ifs with h1 h2 h3 h4 <;> simp <;> tauto

theorem validationError_shape {o : FinderOptions} {e : FinderError}
    (h : validationError o = some e) : ∃ m, e = .configurationError m := by
  unfold validationError at h
  split_ifs at h <;> simp_all <;> exact ⟨_, h.symm⟩

/-! ### Aggregation invariant: every collected default is a collected
candidate (under the `SelectDefaultBrowser` contract) -/

theorem aggregateStep_defaults_mem (o : FinderOptions) (device : Device)
    (acc : List PossibleBrowser × List PossibleBrowser × Nat)
    (finder : FinderBackend)
    (hsel : ∀ (l : List PossibleBrowser) (b : PossibleBrowser),
      finder.selectDefaultBrowser l = some b → b ∈ l)
    (hinv : ∀ b ∈ acc.2.1, b ∈ acc.1) :
    ∀ b ∈ (aggregateStep o device acc finder).2.1,
      b ∈ (aggregateStep o device acc finder).1 := by
  obtain ⟨bs, ds, c⟩ := acc
  simp only [aggregateStep]
  split
  · exact hinv
  · split
    · next nb hnb =>
      intro b hbmem
      rcases List.mem_append.mp hbmem with hbmem | hbmem
      · exact List.mem_append_left _ (hinv b hbmem)
      · have : b = nb := by simpa using hbmem
        subst this
        exact List.mem_append_right _ (hsel _ b hnb)
    · intro b hbmem
      exact List.mem_append_left _ (hinv b hbmem)

theorem foldl_finders_defaults_mem (o : FinderOptions) (device : Device) :
    ∀ (fs : List FinderBackend),
      (∀ f ∈ fs, ∀ (l : List PossibleBrowser) (b : PossibleBrowser),
        f.selectDefaultBrowser l = some b → b ∈ l) →
      ∀ (acc : List PossibleBrowser × List PossibleBrowser × Nat),
        (∀ b ∈ acc.2.1, b ∈ acc.1) →
        ∀ b ∈ (fs.foldl (aggregateStep o device) acc).2.1,
          b ∈ (fs.foldl (aggregateStep o device) acc).1 := by
  intro fs
  induction fs with
  | nil =>
    intro _ acc hinv
    simpa using hinv
  | cons f fs ih =>
    intro hsel acc hinv
    simp only [List.foldl_cons]
    exact ih (fun g hg => hsel g (List.mem_cons_of_mem f hg)) _
      (aggregateStep_defaults_mem o device acc f
        (hsel f (List.mem_cons_self f fs)) hinv)

theorem aggregate_defaults_mem (env : Env) (o : FinderOptions)
    (hlaw : Env.Lawful env) :
    ∀ b ∈ (aggregate env o).2.1, b ∈ (aggregate env o).1 := by
  unfold aggregate
  have main : ∀ (devs : List Device)
      (acc : List PossibleBrowser × List PossibleBrowser × Nat),
      (∀ b ∈ acc.2.1, b ∈ acc.1) →
      ∀ b ∈ (devs.foldl
          (fun acc device => env.finders.foldl (aggregateStep o device) acc)
          acc).2.1,
        b ∈ (devs.foldl
          (fun acc device => env.finders.foldl (aggregateStep o device) acc)
          acc).1 := by
    intro devs
    induction devs with
    | nil =>
      intro acc hinv
      simpa using hinv
    | cons d devs ih =>
      intro acc hinv
      simp only [List.foldl_cons]
      exact ih _ (foldl_finders_defaults_mem o d env.finders hlaw acc hinv)
  exact main _ ([], [], 0) (by simp)

/-! ### Decomposition of `FindBrowserRun` and shape of the resolver -/

theorem FindBrowserRun_eq_resolve (env : Env) (o : FinderOptions)
    (hf : o.fake = none) (hv : validationError o = none)
    {browsers defaults : List PossibleBrowser} {c : Nat}
    (ha : aggregate env o = (browsers, defaults, c)) :
    FindBrowserRun env o = resolve env o browsers defaults c := by
  simp only [FindBrowserRun, hf, hv, ha]

theorem resolve_updates_shape (env : Env) (o : FinderOptions)
    (browsers defaults : List PossibleBrowser) (bcalls : Nat) :
    (resolve env o browsers defaults bcalls).updates =
      match (resolve env o browsers defaults bcalls).result with
      | .ok (some b) => [b]
      | _ => [] := by
  unfold resolve
  rcases browsers with _ | ⟨b0, rest⟩
  · rfl
  rcases o.browser_type with _ | t
  · rcases defaults with _ | ⟨d0, ds⟩
    · rcases rest with _ | ⟨b1, rest'⟩ <;> rfl
    · rfl
  · by_cases hany : t = "any"
    · subst hany
      simp
    · simp only [if_neg hany]
      rcases matchingBrowsers o t (b0 :: rest) with _ | ⟨m0, ms⟩ <;> simp

theorem resolve_no_configurationError (env : Env) (o : FinderOptions)
    (browsers defaults : List PossibleBrowser) (bcalls : Nat) (msg : String) :
    (resolve env o browsers defaults bcalls).result ≠
      .error (.configurationError msg) := by
  unfold resolve
  rcases browsers with _ | ⟨b0, rest⟩
  · simp
  rcases o.browser_type with _ | t
  · rcases defaults with _ | ⟨d0, ds⟩
    · rcases rest with _ | ⟨b1, rest'⟩ <;> simp
    · simp
  · by_cases hany : t = "any"
    · subst hany
      simp
    · simp only [if_neg hany]
      rcases matchingBrowsers o t (b0 :: rest) with _ | ⟨m0, ms⟩ <;> simp

/-! ### Lawfulness of the sample backends -/

theorem head?_select_mem {l : List PossibleBrowser} {b : PossibleBrowser}
    (h : l.head? = some b) : b ∈ l := by
  cases l with
  | nil => simp at h
  | cons x xs =>
    simp only [List.head?_cons, Option.some.injEq] at h
    subst h
    exact List.mem_cons_self x xs

theorem envTwoDefaults_lawful : Env.Lawful envTwoDefaults := by
  intro f hf l b h
  simp only [envTwoDefaults, List.mem_cons, List.not_mem_nil, or_false] at hf
  rcases hf with rfl | rfl <;> exact head?_select_mem h

/-! ### The claims -/

/-- **C10.** For every options object whose class is named
`_FakeBrowserFinderOptions`, `FindBrowser` immediately returns
`options.fake_possible_browser`, performing no configuration validation, no
device enumeration, no backend discovery, and no `UpdateExecutableIfNeeded`
call — even when the configuration violates the validator's rules. -/
theorem FindBrowser_fake_short_circuit (env : Env) (o : FinderOptions)
    (fpb : Option PossibleBrowser) (hf : o.fake = some fpb) :
    FindBrowserRun env o = ⟨.ok fpb, [], 0, 0⟩ := by
  simp only [FindBrowserRun, hf]

/-- Witness for C10: a fake options object whose configuration would be
rejected by the validator (type `exact` with no executable) is still returned
untouched, with no validation, discovery or update calls. -/
theorem FindBrowser_fake_short_circuit_witness :
    FindBrowserRun envEmpty oFakeBad = ⟨.ok (some pbStable), [], 0, 0⟩ ∧
      invalidConfig oFakeBad :=
  ⟨FindBrowser_fake_short_circuit envEmpty oFakeBad (some pbStable) rfl,
    Or.inl ⟨rfl, rfl⟩⟩

/-- **C1.** For every non-fake configuration satisfying one of the four
invalid shapes — `exact` without executable, executable without `exact`,
`cros-chrome` without remote, remote without a ChromeOS variant —
`FindBrowser` raises a configuration error (`BrowserFinderException`) before
any device enumeration or backend call; for every non-fake configuration
satisfying none of them, no configuration error is raised. -/
theorem FindBrowser_configurationError_iff_invalid (env : Env)
    (o : FinderOptions) (hf : o.fake = none) :
    (invalidConfig o →
      ∃ msg, (FindBrowserRun env o).result =
          .error (.configurationError msg) ∧
        (FindBrowserRun env o).deviceCalls = 0 ∧
        (FindBrowserRun env o).backendCalls = 0) ∧
    (¬ invalidConfig o →
      ∀ msg, (FindBrowserRun env o).result ≠
        .error (.configurationError msg)) := by
  constructor
  · intro hbad
    have hv : validationError o ≠ none := fun hnone =>
      ((validationError_eq_none_iff o).mp hnone) hbad
    obtain ⟨e, he⟩ := Option.ne_none_iff_exists'.mp hv
    obtain ⟨m, rfl⟩ := validationError_shape he
    exact ⟨m, by simp [FindBrowserRun, hf, he], by simp [FindBrowserRun, hf, he],
      by simp [FindBrowserRun, hf, he]⟩
  · intro hgood msg
    have hv : validationError o = none := (validationError_eq_none_iff o).mpr hgood
    obtain ⟨⟨browsers, defaults, c⟩, ha⟩ : ∃ x, aggregate env o = x := ⟨_, rfl⟩
    rw [FindBrowserRun_eq_resolve env o hf hv ha]
    exact resolve_no_configurationError env o browsers defaults c msg

/-- Witness for C1: `--browser=exact` without `--browser-executable` fails
with a configuration error and zero discovery calls. -/
theorem FindBrowser_configurationError_witness :
    ∃ msg, (FindBrowserRun envEmpty oExactBad).result =
        .error (.configurationError msg) ∧
      (FindBrowserRun envEmpty oExactBad).deviceCalls = 0 ∧
      (FindBrowserRun envEmpty oExactBad).backendCalls = 0 :=
  (FindBrowser_configurationError_iff_invalid envEmpty oExactBad rfl).1
    (Or.inl ⟨rfl, rfl⟩)

/-- **C9 (counterexample).** The claimed invariant `cros_remote set ⇔
browser_type is a ChromeOS variant` fails on the code: a configuration with
`browser_type = "cros-chrome-guest"` and `cros_remote` unset is accepted by
the validator (and `FindBrowser` proceeds to device enumeration), yet the
right-hand side of the equivalence holds while the left-hand side does not. -/
theorem validator_invariant_counterexample :
    validationError oCrosGuest = none ∧
    (FindBrowserRun envEmpty oCrosGuest).deviceCalls = 1 ∧
    ¬ ((oCrosGuest.cros_remote ≠ none) ↔
        (oCrosGuest.browser_type = some "cros-chrome" ∨
          oCrosGuest.browser_type = some "cros-chrome-guest")) := by
  refine ⟨rfl, rfl, ?_⟩
  intro h
  exact (h.mpr (Or.inr rfl)) rfl

/-- **C9 (amended).** Every configuration accepted by the validator
satisfies: `browser_executable` is set iff `browser_type = "exact"`; if
`cros_remote` is set then `browser_type` is a ChromeOS variant; and if
`browser_type = "cros-chrome"` (the non-guest variant) then `cros_remote` is
set.  (The original biconditional fails for `"cros-chrome-guest"`, which may
leave `cros_remote` unset.) -/
theorem validator_invariant_amended (o : FinderOptions)
    (hv : validationError o = none) :
    ((o.browser_executable ≠ none) ↔ o.browser_type = some "exact") ∧
    (o.cros_remote ≠ none →
      (o.browser_type = some "cros-chrome" ∨
        o.browser_type = some "cros-chrome-guest")) ∧
    (o.browser_type = some "cros-chrome" → o.cros_remote ≠ none) := by
  have h := (validationError_eq_none_iff o).mp hv
  unfold invalidConfig at h
  push_neg at h
  obtain ⟨h1, h2, h3, h4⟩ := h
  refine ⟨⟨fun hexec => ?_, fun htype => h1 htype⟩, fun hremote => ?_, h3⟩
  · by_contra hne
    exact hexec (h2 hne)
  · by_contra hn
    push_neg at hn
    exact hremote (h4 hn)

/-- Witness for the amended C9, at a valid `exact` configuration. -/
theorem validator_invariant_amended_witness :
    ((oExactGood.browser_executable ≠ none) ↔
      oExactGood.browser_type = some "exact") ∧
    (oExactGood.cros_remote ≠ none →
      (oExactGood.browser_type = some "cros-chrome" ∨
        oExactGood.browser_type = some "cros-chrome-guest")) ∧
    (oExactGood.browser_type = some "cros-chrome" →
      oExactGood.cros_remote ≠ none) :=
  validator_invariant_amended oExactGood rfl

/-- **C2.** For every configuration with `browser_type` unset whose
aggregated defaults list is non-empty (under the `SelectDefaultBrowser`
contract), `FindBrowser` returns the default candidate with the maximum
`last_modification_time`, and among several defaults sharing the maximum
timestamp the first-seen one is returned: the chosen candidate splits the
defaults list so that everything before it is strictly older and everything
after it is no newer. -/
theorem FindBrowser_unsetType_picks_most_recent_default (env : Env)
    (o : FinderOptions) (browsers defaults : List PossibleBrowser) (c : Nat)
    (hlaw : Env.Lawful env) (hf : o.fake = none)
    (hv : validationError o = none) (ht : o.browser_type = none)
    (ha : aggregate env o = (browsers, defaults, c)) (hd : defaults ≠ []) :
    ∃ db l₁ l₂, (FindBrowserRun env o).result = .ok (some db) ∧
      defaults = l₁ ++ db :: l₂ ∧
      (∀ x ∈ l₁, x.last_modification_time < db.last_modification_time) ∧
      (∀ x ∈ l₂, x.last_modification_time ≤ db.last_modification_time) := by
  obtain ⟨d0, ds, rfl⟩ := List.exists_cons_of_ne_nil hd
  have hmem : d0 ∈ browsers := by
    have h := aggregate_defaults_mem env o hlaw d0
      (by rw [ha]; exact List.mem_cons_self d0 ds)
    rwa [ha] at h
  obtain ⟨b0, rest, rfl⟩ :=
    List.exists_cons_of_ne_nil (List.ne_nil_of_mem hmem)
  rw [FindBrowserRun_eq_resolve env o hf hv ha]
  have hres : (resolve env o (b0 :: rest) (d0 :: ds) c).result =
      .ok (some (pyMaxByTime d0 ds)) := by
    simp [resolve, ht]
  obtain ⟨l₁, l₂, heq, h₁, h₂⟩ := pyMaxByTime_split d0 ds
  exact ⟨pyMaxByTime d0 ds, l₁, l₂, hres, heq, h₁, h₂⟩

/-- Witness for C2: two backends report defaults with timestamps 100 and
200; the one with timestamp 200 (`pbCanary`) is returned. -/
theorem FindBrowser_unsetType_default_witness :
    (FindBrowserRun envTwoDefaults oUnset).result = .ok (some pbCanary) ∧
    ∃ db l₁ l₂,
      (FindBrowserRun envTwoDefaults oUnset).result = .ok (some db) ∧
      [pbStable, pbCanary] = l₁ ++ db :: l₂ ∧
      (∀ x ∈ l₁, x.last_modification_time < db.last_modification_time) ∧
      (∀ x ∈ l₂, x.last_modification_time ≤ db.last_modification_time) :=
  ⟨rfl,
    FindBrowser_unsetType_picks_most_recent_default envTwoDefaults oUnset
      [pbStable, pbCanary] [pbStable, pbCanary] 4 envTwoDefaults_lawful
      rfl rfl rfl rfl (by simp)⟩

/-- **C3.** For every configuration with `browser_type` unset and an empty
defaults list: if exactly one candidate was aggregated, `FindBrowser`
returns it; if two or more candidates with at least two distinct type names
were aggregated, `FindBrowser` raises `BrowserTypeRequiredException` whose
message enumerates the distinct type names of all aggregated candidates,
de-duplicated and sorted lexicographically. -/
theorem FindBrowser_unsetType_no_defaults (env : Env) (o : FinderOptions)
    (browsers : List PossibleBrowser) (c : Nat)
    (hf : o.fake = none) (hv : validationError o = none)
    (ht : o.browser_type = none)
    (ha : aggregate env o = (browsers, [], c)) :
    (∀ b, browsers = [b] → (FindBrowserRun env o).result = .ok (some b)) ∧
    (2 ≤ browsers.length →
      2 ≤ ((browsers.map (fun b => b.browser_type)).dedup).length →
      (FindBrowserRun env o).result =
        .error (.browserTypeRequired
          (sortedDedup (browsers.map (fun b => b.browser_type)))) ∧
      (sortedDedup (browsers.map (fun b => b.browser_type))).Sorted (· ≤ ·) ∧
      (sortedDedup (browsers.map (fun b => b.browser_type))).Nodup ∧
      (∀ s, s ∈ sortedDedup (browsers.map (fun b => b.browser_type)) ↔
        s ∈ browsers.map (fun b => b.browser_type))) := by
  constructor
  · intro b hb
    subst hb
    rw [FindBrowserRun_eq_resolve env o hf hv ha]
    simp [resolve, ht]
  · intro hlen _
    obtain ⟨b0, l', rfl⟩ := List.exists_cons_of_ne_nil
      (show browsers ≠ [] by rintro rfl; simp at hlen)
    obtain ⟨b1, rest, rfl⟩ := List.exists_cons_of_ne_nil
      (show l' ≠ [] by rintro rfl; simp at hlen)
    rw [FindBrowserRun_eq_resolve env o hf hv ha]
    exact ⟨by simp [resolve, ht], sortedDedup_sorted _, sortedDedup_nodup _,
      fun s => mem_sortedDedup⟩

/-- Witness for C3: a single aggregated candidate is returned as is; two
candidates of distinct types raise `BrowserTypeRequiredException` carrying
the sorted de-duplicated type list. -/
theorem FindBrowser_unsetType_no_defaults_witness :
    (FindBrowserRun envSingle oUnset).result = .ok (some pbStable) ∧
    (FindBrowserRun envTwoTypes oUnset).result =
      .error (.browserTypeRequired
        (sortedDedup ([pbStable, pbCanary].map (fun b => b.browser_type)))) :=
  ⟨(FindBrowser_unsetType_no_defaults envSingle oUnset [pbStable] 2
      rfl rfl rfl rfl).1 pbStable rfl,
    ((FindBrowser_unsetType_no_defaults envTwoTypes oUnset
      [pbStable, pbCanary] 4 rfl rfl rfl rfl).2 (by decide) (by decide)).1⟩

/-- **C4.** For every configuration with an explicit `browser_type` (set,
not `"any"`), `FindBrowser` considers exactly the aggregated candidates of
the requested type whose `SupportsOptions(browser_options)` hook returns
true: if none matches it returns `None` without raising; otherwise it
returns the matching candidate with the maximum `last_modification_time`
(the first-seen one among ties). -/
theorem FindBrowser_explicitType (env : Env) (o : FinderOptions) (t : String)
    (browsers defaults : List PossibleBrowser) (c : Nat)
    (hf : o.fake = none) (hv : validationError o = none)
    (ht : o.browser_type = some t) (hany : t ≠ "any")
    (ha : aggregate env o = (browsers, defaults, c)) :
    (matchingBrowsers o t browsers = [] →
      (FindBrowserRun env o).result = .ok none) ∧
    (∀ m0 ms, matchingBrowsers o t browsers = m0 :: ms →
      ∃ cb l₁ l₂, (FindBrowserRun env o).result = .ok (some cb) ∧
        m0 :: ms = l₁ ++ cb :: l₂ ∧
        (∀ x ∈ l₁, x.last_modification_time < cb.last_modification_time) ∧
        (∀ x ∈ l₂, x.last_modification_time ≤ cb.last_modification_time)) := by
  rw [FindBrowserRun_eq_resolve env o hf hv ha]
  constructor
  · intro hm
    cases browsers with
    | nil => simp [resolve]
    | cons b0 rest => simp [resolve, ht, if_neg hany, hm]
  · intro m0 ms hm
    cases browsers with
    | nil => simp [matchingBrowsers] at hm
    | cons b0 rest =>
      have hres : (resolve env o (b0 :: rest) defaults c).result =
          .ok (some (pyMaxByTime m0 ms)) := by
        simp [resolve, ht, if_neg hany, hm]
      obtain ⟨l₁, l₂, heq, h₁, h₂⟩ := pyMaxByTime_split m0 ms
      exact ⟨pyMaxByTime m0 ms, l₁, l₂, hres, heq, h₁, h₂⟩

/-- Witness for C4: `--browser=exact` with an executable set, one backend
reporting one candidate of type `exact` that supports the options: that
candidate is returned. -/
theorem FindBrowser_explicitType_witness :
    (FindBrowserRun envExact oExactGood).result = .ok (some pbExact) ∧
    ∃ cb l₁ l₂, (FindBrowserRun envExact oExactGood).result = .ok (some cb) ∧
      [pbExact] = l₁ ++ cb :: l₂ ∧
      (∀ x ∈ l₁, x.last_modification_time < cb.last_modification_time) ∧
      (∀ x ∈ l₂, x.last_modification_time ≤ cb.last_modification_time) :=
  ⟨rfl,
    (FindBrowser_explicitType envExact oExactGood "exact" [pbExact] [pbExact]
      3 rfl rfl rfl (by decide) rfl).2 pbExact [] rfl⟩

/-- **C5.** For every configuration with `browser_type = "any"` and a
non-empty aggregated candidate list, provided every candidate's type occurs
in `FindAllBrowserTypes` — the concatenation of each backend's declared type
list in registration order — `FindBrowser` returns the candidate whose type
has the lowest index in that list, ties on index going to the first-seen
candidate; `last_modification_time` plays no role (the split below
determines the choice from type indices alone). -/
theorem FindBrowser_anyType_earliest_declared (env : Env) (o : FinderOptions)
    (browsers defaults : List PossibleBrowser) (c : Nat)
    (hf : o.fake = none) (hv : validationError o = none)
    (ht : o.browser_type = some "any")
    (ha : aggregate env o = (browsers, defaults, c))
    (hne : browsers ≠ [])
    (htypes : ∀ b ∈ browsers, b.browser_type ∈ FindAllBrowserTypes env o) :
    FindAllBrowserTypes env o =
      env.finders.flatMap (fun bf => bf.findAllBrowserTypes o) ∧
    ∃ cb l₁ l₂, (FindBrowserRun env o).result = .ok (some cb) ∧
      browsers = l₁ ++ cb :: l₂ ∧
      (∀ x ∈ l₁,
        (FindAllBrowserTypes env o).indexOf cb.browser_type <
          (FindAllBrowserTypes env o).indexOf x.browser_type) ∧
      (∀ x ∈ l₂,
        (FindAllBrowserTypes env o).indexOf cb.browser_type ≤
          (FindAllBrowserTypes env o).indexOf x.browser_type) := by
  obtain ⟨b0, rest, rfl⟩ := List.exists_cons_of_ne_nil hne
  rw [FindBrowserRun_eq_resolve env o hf hv ha]
  refine ⟨rfl, ?_⟩
  have hres : (resolve env o (b0 :: rest) defaults c).result =
      .ok (some (pyMinByTypeIndex (FindAllBrowserTypes env o) b0 rest)) := by
    simp [resolve, ht]
  obtain ⟨l₁, l₂, heq, h₁, h₂⟩ :=
    pyMinByTypeIndex_split (FindAllBrowserTypes env o) b0 rest
  exact ⟨pyMinByTypeIndex (FindAllBrowserTypes env o) b0 rest, l₁, l₂,
    hres, heq, h₁, h₂⟩

/-- Witness for C5: with two candidates whose types are declared in the
order `stable`, `canary`, `--browser=any` picks the `stable` one (the
earliest-declared type), not the more recently built `canary` one. -/
theorem FindBrowser_anyType_witness :
    (FindBrowserRun envTwoDefaults oAny).result = .ok (some pbStable) ∧
    ∃ cb l₁ l₂, (FindBrowserRun envTwoDefaults oAny).result = .ok (some cb) ∧
      [pbStable, pbCanary] = l₁ ++ cb :: l₂ ∧
      (∀ x ∈ l₁,
        (FindAllBrowserTypes envTwoDefaults oAny).indexOf cb.browser_type <
          (FindAllBrowserTypes envTwoDefaults oAny).indexOf x.browser_type) ∧
      (∀ x ∈ l₂,
        (FindAllBrowserTypes envTwoDefaults oAny).indexOf cb.browser_type ≤
          (FindAllBrowserTypes envTwoDefaults oAny).indexOf x.browser_type) :=
  ⟨rfl,
    (FindBrowser_anyType_earliest_declared envTwoDefaults oAny
      [pbStable, pbCanary] [pbStable, pbCanary] 4 rfl rfl rfl rfl
      (by simp) (by decide)).2⟩

/-- `FindBrowser`'s update trace, for non-fake options, is determined by its
result: the returned candidate exactly once, nothing otherwise. -/
theorem FindBrowserRun_updates_shape (env : Env) (o : FinderOptions)
    (hf : o.fake = none) :
    (FindBrowserRun env o).updates =
      match (FindBrowserRun env o).result with
      | .ok (some b) => [b]
      | _ => [] := by
  unfold FindBrowserRun
  rw [hf]
  cases hv : validationError o with
  | some e => simp
  | none =>
    obtain ⟨⟨browsers, defaults, c⟩, ha⟩ : ∃ x, aggregate env o = x := ⟨_, rfl⟩
    simp only [ha]
    exact resolve_updates_shape env o browsers defaults c

/-- **C6.** Whenever a (non-fake) `FindBrowser` computation returns a
candidate, that candidate's `UpdateExecutableIfNeeded` hook is invoked
exactly once before it is returned; whenever it returns `None` or raises, no
candidate's hook is invoked. -/
theorem FindBrowser_update_hook_exactly_once (env : Env) (o : FinderOptions)
    (hf : o.fake = none) :
    (∀ b, (FindBrowserRun env o).result = .ok (some b) →
      (FindBrowserRun env o).updates = [b]) ∧
    (((FindBrowserRun env o).result = .ok none ∨
        ∃ e, (FindBrowserRun env o).result = .error e) →
      (FindBrowserRun env o).updates = []) := by
  have hshape := FindBrowserRun_updates_shape env o hf
  constructor
  · intro b hb
    rw [hshape, hb]
  · rintro (h | ⟨e, h⟩) <;> rw [hshape, h]

/-- Witness for C6: with no devices the run returns `None` and invokes no
hook; with two defaults the chosen candidate's hook is invoked exactly
once. -/
theorem FindBrowser_update_hook_witness :
    (FindBrowserRun envEmpty oUnset).updates = [] ∧
    (FindBrowserRun envTwoDefaults oUnset).updates = [pbCanary] :=
  ⟨(FindBrowser_update_hook_exactly_once envEmpty oUnset rfl).2 (Or.inl rfl),
    (FindBrowser_update_hook_exactly_once envTwoDefaults oUnset rfl).1
      pbCanary rfl⟩

/-- **C7.** For any two memoized `FindBrowser` calls with equal
configurations within one process (starting from an empty cache), the second
call returns the result previously computed by the first without re-running
resolution: it performs zero device-enumeration and zero backend-discovery
calls, so the two calls combined invoke the backends exactly as often as a
single uncached run does. -/
theorem FindBrowser_memoization (env : Env) (o : FinderOptions) :
    (FindBrowserCached env (FindBrowserCached env [] o).cache o).result =
      (FindBrowserCached env [] o).result ∧
    (FindBrowserCached env (FindBrowserCached env [] o).cache o).deviceCalls
      = 0 ∧
    (FindBrowserCached env (FindBrowserCached env [] o).cache o).backendCalls
      = 0 ∧
    (FindBrowserCached env [] o).deviceCalls +
        (FindBrowserCached env (FindBrowserCached env [] o).cache o).deviceCalls
      = (FindBrowserRun env o).deviceCalls ∧
    (FindBrowserCached env [] o).backendCalls +
        (FindBrowserCached env
          (FindBrowserCached env [] o).cache o).backendCalls
      = (FindBrowserRun env o).backendCalls := by
  have h1 : FindBrowserCached env [] o =
      ⟨(FindBrowserRun env o).result, (FindBrowserRun env o).deviceCalls,
        (FindBrowserRun env o).backendCalls,
        [(o.key, (FindBrowserRun env o).result)]⟩ := by
    simp [FindBrowserCached]
  have h2 : FindBrowserCached env
      [(o.key, (FindBrowserRun env o).result)] o =
      ⟨(FindBrowserRun env o).result, 0, 0,
        [(o.key, (FindBrowserRun env o).result)]⟩ := by
    simp [FindBrowserCached, List.find?]
  rw [h1]
  simp only [h2]
  simp

/-- **C8.** For every configuration, `GetAllAvailableBrowserTypes` returns a
lexicographically sorted, duplicate-free list of the type names of all
candidates discovered across all matching devices and backends, and this
list additionally contains `"reference"` (exactly once, by freedom from
duplicates) if and only if at least one discovered candidate's `target_os`
is `"darwin"` or starts with `"linux"` or `"win"`. -/
theorem GetAllAvailableBrowserTypes_spec (env : Env) (o : FinderOptions) :
    (GetAllAvailableBrowserTypes env o).Sorted (· ≤ ·) ∧
    (GetAllAvailableBrowserTypes env o).Nodup ∧
    (∀ s, s ∈ GetAllAvailableBrowserTypes env o ↔
      (s ∈ (discoveredBrowsers env o).map (fun b => b.browser_type) ∨
        (s = "reference" ∧ (discoveredBrowsers env o).any refCond = true))) ∧
    ((discoveredBrowsers env o).any refCond = true →
      (GetAllAvailableBrowserTypes env o).count "reference" = 1) := by
  unfold GetAllAvailableBrowserTypes
  refine ⟨sortedDedup_sorted _, sortedDedup_nodup _, ?_, ?_⟩
  · intro s
    rw [mem_sortedDedup]
    by_cases hc : (discoveredBrowsers env o).any refCond <;> simp [hc]
  · intro hc
    exact List.count_eq_one_of_mem (sortedDedup_nodup _)
      (mem_sortedDedup.mpr (by simp [hc]))

end BrowserFinding
